import Mathlib

/-!
Verification of the muod host-monitoring tool (Go): a shallow embedding of
the ICMP transport implementations (`pkg/ping/ping_unix.go`,
`pkg/ping/ping_windows.go`), the host resolver (`pkg/ping`'s `ResolveHosts`)
and the round scheduler (`cmd/muod/main.go`'s `monitorHosts`), together with
theorems settling the specification's claims about them.

Times and durations are modelled as `Int` nanoseconds (Go's `time.Duration`
is an `int64` nanosecond count); machine-width conversions are made explicit
with `% 2^32` where the source performs them.  Hostnames are opaque `Nat`
identifiers and error values are an explicit inductive type, so that every
definition is executable and every fallible operation returns `Except`.
-/

/-- Durations in nanoseconds, as in Go's `time.Duration` (`int64`). -/
abbrev GoDuration := Int

/-- Instants in nanoseconds since some epoch, as in Go's `time.Time`. -/
abbrev Instant := Int

/-- Opaque hostname identifiers (the model does not inspect name syntax). -/
abbrev Hostname := Nat

/-- The ICMP message types relevant to the Unix transport. -/
inductive ICMPType where
  | echo
  | echoReply
  | destinationUnreachable
  | other (n : Nat)
deriving DecidableEq, Repr

/-- The error values the embedded operations can produce, one constructor
per distinct error construction site in the source. -/
inductive GoError where
  | useOfClosedConn
  | resolveFailure (host : Hostname)
  | noIPv4Found (host : Hostname)
  | setDeadlineFailed
  | writeFailed
  | readFailed
  | parseFailed
  | unexpectedICMPType (t : ICMPType)
  | findProcFailed
  | icmpSendEchoFailed
deriving DecidableEq, Repr

/-! ## Unix transport: connection and `Close` (ping_unix.go)

The Unix pinger holds an `*icmp.PacketConn` (backed by a `net.UDPConn`).
Go standard-library behaviour, which the embedding must model: closing a
network connection that is already closed returns a non-nil error
(`use of closed network connection`); the file descriptor itself is
reference-counted inside the runtime and is not freed twice. -/

/-- State of the underlying UDP-based ICMP packet connection. -/
structure UDPConn where
  closed : Bool
deriving DecidableEq, Repr

/-- Modelled Go standard-library semantics of `net.Conn.Close` (hence of
`icmp.PacketConn.Close`, which forwards to it): the first call closes the
connection and returns nil; a call on an already-closed connection returns
the `use of closed network connection` error. -/
def UDPConn.close (c : UDPConn) : UDPConn × Except GoError Unit :=
  if c.closed then (c, Except.error GoError.useOfClosedConn)
  else ({ closed := true }, Except.ok ())

/-- The Unix pinger (`unixPinger` in ping_unix.go): a single field `conn`,
a possibly-nil pointer to the packet connection. -/
structure unixPinger where
  conn : Option UDPConn
deriving DecidableEq, Repr

/-- Embedding of `unixPinger.Close` (ping_unix.go lines 26-31):
`if up.conn != nil { return up.conn.Close() }; return nil`.
The source never sets `up.conn` to nil, so the field survives the call
(only the connection it points to changes state). -/
def unixPinger.Close (up : unixPinger) : unixPinger × Except GoError Unit :=
  match up.conn with
  | some c =>
      let r := c.close
      ({ conn := some r.1 }, r.2)
  | none => (up, Except.ok ())

/-- A freshly constructed Unix pinger (`newPinger` succeeded): the
connection is open. -/
def freshUnixPinger : unixPinger := { conn := some { closed := false } }

/-! ## Windows transport: handle bookkeeping and `Close` (ping_windows.go)

`windowsPinger.Close` is
`if wp.handle != 0 { ... closeProc.Call(uintptr(wp.handle)) }; return wp.dll.Release()`.
The source never zeroes `wp.handle` after closing, so the guard stays true
on every later call.  The model tracks how many times `IcmpCloseHandle` has
been invoked on the handle and how many times the DLL has been released. -/

/-- External observable effects of `windowsPinger.Close` calls. -/
structure WinCloseEffects where
  icmpCloseCalls : Nat
  dllReleaseCalls : Nat
deriving DecidableEq, Repr

/-- The Windows pinger's field relevant to `Close`: the ICMP handle
(non-zero when construction succeeded). -/
structure windowsPinger where
  handle : Nat
deriving DecidableEq, Repr

/-- Embedding of `windowsPinger.Close` (ping_windows.go lines 72-80): when
`handle != 0` it calls `IcmpCloseHandle(handle)` (freeing the OS handle), and
it unconditionally calls `wp.dll.Release()`.  The pinger's fields are not
modified, so the returned pinger equals the argument. -/
def windowsPinger.Close (wp : windowsPinger) (eff : WinCloseEffects) :
    windowsPinger × WinCloseEffects :=
  let eff1 :=
    if wp.handle ≠ 0 then
      { eff with icmpCloseCalls := eff.icmpCloseCalls + 1 }
    else eff
  (wp, { eff1 with dllReleaseCalls := eff1.dllReleaseCalls + 1 })

/-- A freshly constructed Windows pinger: `IcmpCreateFile` returned a
non-zero handle. -/
def freshWindowsPinger : windowsPinger := { handle := 7 }

/-! ## Host resolution (`ResolveHosts`, pkg/ping)

`net.LookupIP` is the environment: a function from hostname to either an
error or the list of addresses.  An address is modelled by whether `To4()`
is non-nil plus an opaque value. -/

/-- An IP address as relevant to `ResolveHosts`: `isV4` models
`ip.To4() != nil`; `val` is the address value itself (opaque here). -/
structure IPAddress where
  isV4 : Bool
  val : Nat
deriving DecidableEq, Repr

/-- A resolved host record (`HostInfo` in pkg/ping): the original hostname
and its resolved IPv4 address. -/
structure HostInfo where
  Hostname : Hostname
  IPAddr : IPAddress
deriving DecidableEq, Repr

/-- The inner loop of `ResolveHosts`: scan the looked-up addresses in order
and keep the first one whose `To4()` is non-nil (`ipv4Addr = ip; break`). -/
def firstIPv4 (ips : List IPAddress) : Option IPAddress :=
  ips.find? (fun ip => ip.isV4)

/-- Embedding of `ResolveHosts` (pkg/ping): for each hostname in order,
look it up; a lookup error aborts the whole batch with an error and no
partial result; otherwise take the first IPv4 address, failing the whole
batch if there is none; append the record and continue.  `lookup` stands
for `net.LookupIP`. -/
def ResolveHosts (lookup : Hostname → Except GoError (List IPAddress)) :
    List Hostname → Except GoError (List HostInfo)
  | [] => Except.ok []
  | host :: rest =>
    match lookup host with
    | Except.error _ => Except.error (GoError.resolveFailure host)
    | Except.ok ips =>
      match firstIPv4 ips with
      | none => Except.error (GoError.noIPv4Found host)
      | some ip4 =>
        match ResolveHosts lookup rest with
        | Except.error e => Except.error e
        | Except.ok tail => Except.ok ({ Hostname := host, IPAddr := ip4 } :: tail)

/-! ## Unix transport: `Ping` (ping_unix.go lines 48-77)

The probe sets a read deadline, marshals an Echo Request (identifier = low
16 bits of the pid, sequence 1, payload the four bytes of the word ping),
sends it, performs one blocking read, parses the reply, and switches on the
parsed type.  The socket operations and the reply parser are the
environment; the elapsed time between send and successful read is an
environment value as well. -/

/-- A parsed ICMP message as produced by `icmp.ParseMessage`: type, code,
and the Echo body fields (identifier, sequence, payload bytes). -/
structure ICMPMessage where
  type : ICMPType
  code : Nat
  id : Nat
  seq : Nat
  payload : List Nat
deriving DecidableEq, Repr

/-- Embedding of `createICMPMessage` (ping_unix.go lines 33-46): an Echo
Request with code 0, the given identifier and sequence, and the four
payload bytes 112, 105, 110, 103 (the ASCII codes of the word ping). -/
def createICMPMessage (id seq : Nat) : ICMPMessage :=
  { type := ICMPType.echo, code := 0, id := id, seq := seq
    payload := [112, 105, 110, 103] }

/-- Environment of one `unixPinger.Ping` call: the outcomes of the socket
operations, the sender address and bytes the blocking read produced, the
reply parser (`icmp.ParseMessage`), and the elapsed time `time.Since(start)`
observed at the moment the read returned. -/
structure UnixPingEnv where
  setDeadlineErr : Option GoError
  writeErr : Option GoError
  readOutcome : Except GoError (List Nat × Nat)
  parse : List Nat → Except GoError ICMPMessage
  elapsed : GoDuration

/-- Embedding of `unixPinger.Ping` (ping_unix.go lines 48-77): propagate a
deadline-setting error, send (propagating a write error), read once
(propagating a read error, which includes the deadline expiring), parse the
bytes read (propagating a parse failure), then switch on the parsed type:
Echo Reply succeeds with the elapsed time as rtt, any other type fails.
The sender address returned by the read is bound to the blank identifier in
the source and is discarded here the same way. -/
def unixPing (env : UnixPingEnv) : Except GoError GoDuration :=
  match env.setDeadlineErr with
  | some e => Except.error e
  | none =>
    match env.writeErr with
    | some e => Except.error e
    | none =>
      match env.readOutcome with
      | Except.error e => Except.error e
      | Except.ok readData =>
        match env.parse readData.1 with
        | Except.error e => Except.error e
        | Except.ok rm =>
          match rm.type with
          | ICMPType.echoReply => Except.ok env.elapsed
          | t => Except.error (GoError.unexpectedICMPType t)

/-! ## Windows transport: `Ping` (ping_windows.go lines 82-116) -/

/-- Go's `time.Duration.Milliseconds`: truncated (toward-zero) division of
the nanosecond count by one million. -/
def DurationMilliseconds (d : GoDuration) : Int :=
  Int.tdiv d 1000000

/-- Go's conversion `uint32(x)` of an `int64`: the low 32 bits, i.e. the
value reduced modulo 2^32. -/
def toUint32 (n : Int) : Nat :=
  (n % (2 ^ 32 : Int)).toNat

/-- The timeout handed to `IcmpSendEcho` by `windowsPinger.Ping`
(ping_windows.go lines 88-91): `timeoutMs := uint32(timeout.Milliseconds());
if timeoutMs < 1 { timeoutMs = 1 }`. -/
def windowsTimeoutMs (timeout : GoDuration) : Nat :=
  let timeoutMs := toUint32 (DurationMilliseconds timeout)
  if timeoutMs < 1 then 1 else timeoutMs

/-- The `ICMP_ECHO_REPLY` structure (ping_windows.go lines 31-39) as read
back from the reply buffer: responding address, status code, round-trip
time in milliseconds (a `uint32`), and the data size. -/
structure icmpEchoReply where
  Address : Nat
  Status : Nat
  RoundTripTime : Nat
  DataSize : Nat
deriving DecidableEq, Repr

/-- Environment of one `windowsPinger.Ping` call: whether the
`IcmpSendEcho` procedure lookup succeeds, the facility's return value
(non-zero means success), and the reply structure the facility wrote into
the reply buffer. -/
structure WinPingEnv where
  findProcOk : Bool
  ret : Nat
  reply : icmpEchoReply

/-- Embedding of `windowsPinger.Ping` (ping_windows.go lines 82-116): fail
if `IcmpSendEcho` cannot be found; call the facility with the timeout
converted by `windowsTimeoutMs`; a zero return fails with the facility
error; a non-zero return succeeds with
`time.Duration(reply.RoundTripTime) * time.Millisecond` as the rtt.  The
reply's `Status` field is not read anywhere in the source.  Besides the
function's Go result, the model returns the millisecond timeout argument
observably handed to `IcmpSendEcho` (`none` when the call is never made
because the procedure lookup failed). -/
def windowsPing (env : WinPingEnv) (timeout : GoDuration) :
    Except GoError GoDuration × Option Nat :=
  if env.findProcOk = false then (Except.error GoError.findProcFailed, none)
  else
    let timeoutMs := windowsTimeoutMs timeout
    if env.ret = 0 then (Except.error GoError.icmpSendEchoFailed, some timeoutMs)
    else (Except.ok ((env.reply.RoundTripTime : Int) * 1000000), some timeoutMs)

/-! ## Round scheduler: the `monitorHosts` loop (cmd/muod/main.go)

Two views of the loop are embedded.  `monitorRounds` captures the count
logic (lines 91-141): which round indices the loop emits and whether it
terminates, with an explicit fuel so that non-termination is observable as
exhaustion at every fuel.  `runRounds` captures the timing of lines
104-111: per round, `nextPingTime := start + count * timeout`; if
`time.Until(nextPingTime) > 0` the loop sleeps until `nextPingTime`; each
probe in the round is issued with the same `timeout` value. -/

/-- The round-emitting loop of `monitorHosts` starting at index `i`:
each iteration emits round `i`, increments, and breaks afterwards exactly
when `countFlag > 0 && count >= countFlag`.  `fuel` bounds the number of
iterations the model is willing to unfold; `none` means the loop was still
running when the fuel ran out. -/
def roundsLoop (countFlag : Int) : Nat → Nat → Option (List Nat)
  | _, 0 => none
  | i, fuel + 1 =>
    if countFlag > 0 ∧ (i + 1 : Int) ≥ countFlag then some [i]
    else
      match roundsLoop countFlag (i + 1) fuel with
      | none => none
      | some rest => some (i :: rest)

/-- The round indices `monitorHosts` emits: for `countFlag = 0` the
function returns before creating a pinger or entering the loop (lines
92-95), so no round is emitted; otherwise the loop runs from index 0. -/
def monitorRounds (countFlag : Int) (fuel : Nat) : Option (List Nat) :=
  if countFlag = 0 then some [] else roundsLoop countFlag 0 fuel

/-- Whether `monitorHosts` constructs a transport at all: `ping.New()` is
reached exactly when `countFlag ≠ 0` (the `countFlag == 0` early return
precedes it). -/
def monitorCreatesPinger (countFlag : Int) : Bool :=
  countFlag ≠ 0

/-- One emitted round of the timing model: its index, the computed
`nextPingTime` target, the clock value when the iteration began, the clock
value when probing began (after the conditional sleep), and the timeout
value passed to `pinger.Ping` for every host of the round. -/
structure RoundRec where
  idx : Nat
  target : Instant
  enterNow : Instant
  startT : Instant
  probeTimeout : GoDuration
deriving DecidableEq, Repr

/-- Timing of the `monitorHosts` loop (lines 104-111), one iteration per
entry of `durs` (the wall-clock time the round's sequential probing and
printing consumes): compute `target = start + i * timeout`; sleep exactly
until `target` when the current time is before it, otherwise proceed
immediately; probing then advances the clock by the round's duration. -/
def runRounds (timeout : GoDuration) (start : Instant) :
    Instant → Nat → List GoDuration → List RoundRec
  | _, _, [] => []
  | now, i, d :: durs =>
    let target := start + (i : Int) * timeout
    let st := if now < target then target else now
    { idx := i, target := target, enterNow := now, startT := st
      probeTimeout := timeout } :: runRounds timeout start (st + d) (i + 1) durs

/-- The timing model entered as `monitorHosts` enters it: `start := 
time.Now()` immediately before the loop, so the clock at the first
iteration equals `start`. -/
def runRoundsTop (timeout : GoDuration) (start : Instant)
    (durs : List GoDuration) : List RoundRec :=
  runRounds timeout start start 0 durs

/-! ## Exit paths of the monitoring run (cmd/muod/main.go lines 97-102)

`monitorHosts` closes the pinger with `defer pinger.Close()`.  Go
semantics modelled here: a deferred call runs when the surrounding
function returns normally; it does not run when the process is killed by a
signal whose disposition is the default, and `main.go` registers no signal
handler (`signal.Notify` appears nowhere in the source), so an external
interrupt terminates the process at whatever point execution has reached,
without the deferred `Close`.  A trace is the sequence of observable
events of one `monitorHosts` run. -/

/-- Observable events of a `monitorHosts` run: transport construction, one
probe per host per round, and the transport release. -/
inductive Ev where
  | create
  | probe (round : Nat) (host : Nat)
  | close
deriving DecidableEq, Repr

/-- The body events of a run with `rounds` rounds over `hosts` hosts, in
program order, without the deferred `Close`: construction, then for each
round its probes in host order. -/
def bodyEvents (rounds hosts : Nat) : List Ev :=
  Ev.create ::
    (List.range rounds).flatMap (fun i => (List.range hosts).map (Ev.probe i))

/-- The trace of a run that completes normally (count exhausted): the body
followed by the deferred `pinger.Close()` executed at function return. -/
def normalTrace (rounds hosts : Nat) : List Ev :=
  bodyEvents rounds hosts ++ [Ev.close]

/-- The trace of a run interrupted by an external signal after `k` body
events: with no handler registered, the process dies at that point and the
deferred `Close` never runs, so the trace is just the truncated body. -/
def interruptedTrace (rounds hosts k : Nat) : List Ev :=
  (bodyEvents rounds hosts).take k

/-! ## Auxiliary definitions used in statements and witnesses -/

/-- The address `ResolveHosts` would record for one hostname: the first
IPv4 address among the looked-up addresses, or `none` when the lookup
fails or yields no IPv4 address. -/
def hostFirstIP (lookup : Hostname → Except GoError (List IPAddress))
    (h : Hostname) : Option IPAddress :=
  match lookup h with
  | Except.error _ => none
  | Except.ok ips => firstIPv4 ips

/-- Name service used by the C4 witness: host 0 has a v6 address before a
v4 one, host 1 is v4 only, every other name fails to look up. -/
def c4Lookup : Hostname → Except GoError (List IPAddress) := fun h =>
  if h = 0 then
    Except.ok [{ isV4 := false, val := 6 }, { isV4 := true, val := 10 }]
  else if h = 1 then Except.ok [{ isV4 := true, val := 20 }]
  else Except.error GoError.readFailed

/-- Round record used by the C5 witness: round 1 of the run with start
100, interval 10 and a first round lasting 3 time units. -/
def c5Rec : RoundRec :=
  { idx := 1, target := 110, enterNow := 103, startT := 110, probeTimeout := 10 }

/-- Round record used by the C8 witness: round 0 of a run with start 100
and timeout 10. -/
def c8Rec : RoundRec :=
  { idx := 0, target := 100, enterNow := 100, startT := 100, probeTimeout := 10 }

/-- Environment of a Unix probe whose deadline setting, send, and blocking
read all succeed, whose read bytes parse to the message `m`, and whose
elapsed time since the send is `elapsed`; `sender` is the peer address the
read reports. -/
def unixPingReplyEnv (bytes : List Nat) (sender : Nat) (m : ICMPMessage)
    (elapsed : GoDuration) : UnixPingEnv :=
  { setDeadlineErr := none, writeErr := none
    readOutcome := Except.ok (bytes, sender)
    parse := fun _ => Except.ok m
    elapsed := elapsed }

/-- Parsed Echo Reply used by the C6 witness. -/
def c6ReplyMsg : ICMPMessage :=
  { type := ICMPType.echoReply, code := 0, id := 3, seq := 1, payload := [] }

/-- Parsed destination-unreachable message used by the C6 witness. -/
def c6BadMsg : ICMPMessage :=
  { type := ICMPType.destinationUnreachable, code := 1, id := 3, seq := 1,
    payload := [] }

/-- Facility environment used by the C7 witness: the echo call returns 1
and the reply structure reports a 23 millisecond round trip. -/
def c7Env : WinPingEnv :=
  { findProcOk := true, ret := 1
    reply := { Address := 0, Status := 0, RoundTripTime := 23, DataSize := 4 } }

/-- Facility environment used by the C10 witness: the echo call returns
non-zero while the reply's status field 11010 records a failure
(request timed out in the facility's status numbering). -/
def c10Env : WinPingEnv :=
  { findProcOk := true, ret := 1
    reply := { Address := 9, Status := 11010, RoundTripTime := 17, DataSize := 4 } }

/-- Facility environment used by the C10 witness for the failing case: the
echo call returns zero. -/
def c10EnvZero : WinPingEnv :=
  { findProcOk := true, ret := 0
    reply := { Address := 9, Status := 0, RoundTripTime := 17, DataSize := 4 } }

/-! ## Helper lemmas on the scheduler loop -/

lemma roundsLoop_neg (c : Int) (hc : c < 0) :
    ∀ (fuel i : Nat), roundsLoop c i fuel = none := by
  intro fuel
  induction fuel with
  | zero => intro i; simp [roundsLoop]
  | succ n ih =>
      intro i
      have hcond : ¬(c > 0 ∧ (i + 1 : Int) ≥ c) := by
        intro h
        omega
      simp [roundsLoop, hcond, ih]

lemma roundsLoop_pos (N : Int) (hN : 0 < N) :
    ∀ (fuel i : Nat), i < N.toNat → N.toNat ≤ i + fuel →
      roundsLoop N i fuel = some (List.range' i (N.toNat - i)) := by
  intro fuel
  induction fuel with
  | zero => intro i h1 h2; omega
  | succ n ih =>
      intro i h1 h2
      by_cases hbr : (i + 1 : Int) ≥ N
      · have hNi : N.toNat = i + 1 := by omega
        have hc : N > 0 ∧ (i + 1 : Int) ≥ N := ⟨hN, hbr⟩
        simp [roundsLoop, hc, hNi]
      · have hi1 : i + 1 < N.toNat := by omega
        have hrec := ih (i + 1) hi1 (by omega)
        have hc : ¬(N > 0 ∧ (i + 1 : Int) ≥ N) := by
          intro h
          exact hbr h.2
        have hsub : N.toNat - i = (N.toNat - (i + 1)) + 1 := by omega
        simp [roundsLoop, hc, hrec, hsub, List.range'_succ]

/-- Claim C1: the spec says `Close` is idempotent (a second call returns no
error and never frees the handle twice); evaluating the embedded code at the
failing input shows otherwise.  On Unix the first `Close` succeeds but the
second, because `up.conn` is never set to nil, forwards to the already-closed
connection and returns the `use of closed network connection` error.  On
Windows, because `wp.handle` is never zeroed, a second `Close` invokes
`IcmpCloseHandle` on the same handle a second time (and releases the DLL a
second time). -/
theorem c1_double_close_evaluation :
    ((unixPinger.Close freshUnixPinger).2 = Except.ok () ∧
      (unixPinger.Close (unixPinger.Close freshUnixPinger).1).2 =
        Except.error GoError.useOfClosedConn) ∧
    ((windowsPinger.Close
        (windowsPinger.Close freshWindowsPinger
          { icmpCloseCalls := 0, dllReleaseCalls := 0 }).1
        (windowsPinger.Close freshWindowsPinger
          { icmpCloseCalls := 0, dllReleaseCalls := 0 }).2).2.icmpCloseCalls = 2 ∧
      (windowsPinger.Close
        (windowsPinger.Close freshWindowsPinger
          { icmpCloseCalls := 0, dllReleaseCalls := 0 }).1
        (windowsPinger.Close freshWindowsPinger
          { icmpCloseCalls := 0, dllReleaseCalls := 0 }).2).2.dllReleaseCalls = 2) := by
  exact ⟨⟨rfl, rfl⟩, rfl, rfl⟩

/-- Claim C2: the transport handle is released on normal completion of the
round loop (the deferred `Close` runs at function return), but an external
interrupt delivered mid-probe kills the process without running the deferred
call, because no signal handler is installed anywhere in the source; the
release obligation therefore fails on that exit path.  Concretely, a run of
5 rounds over 2 hosts interrupted after 4 body events (mid-probe in round 1)
never executes `Close`. -/
theorem c2_close_on_exit_paths :
    (∀ rounds hosts : Nat, Ev.close ∈ normalTrace rounds hosts) ∧
    Ev.close ∉ interruptedTrace 5 2 4 := by
  constructor
  · intro rounds hosts
    simp [normalTrace]
  · decide

/-- Claim C3: for `count = 0` the scheduler returns after resolution only,
emitting zero rounds and never constructing a transport; for `count = N > 0`
it emits exactly the rounds `0..N-1` (observable at any fuel of at least
`N` iterations); for negative `count` the loop is still running at every
fuel, i.e. it never terminates on its own. -/
theorem c3_count_parameter_semantics :
    (∀ fuel : Nat, monitorRounds 0 fuel = some [] ∧
      monitorCreatesPinger 0 = false) ∧
    (∀ (N : Int) (fuel : Nat), 0 < N → N.toNat ≤ fuel →
      monitorRounds N fuel = some (List.range N.toNat)) ∧
    (∀ (c : Int) (fuel : Nat), c < 0 → monitorRounds c fuel = none) := by
  refine ⟨?_, ?_, ?_⟩
  · intro fuel
    exact ⟨by simp [monitorRounds], by simp [monitorCreatesPinger]⟩
  · intro N fuel hN hf
    have hne : N ≠ 0 := by omega
    have h0 : (0 : Nat) < N.toNat := by omega
    rw [monitorRounds, if_neg hne, roundsLoop_pos N hN fuel 0 h0 (by omega)]
    simp [List.range_eq_range']
  · intro c fuel hc
    have hne : c ≠ 0 := by omega
    rw [monitorRounds, if_neg hne, roundsLoop_neg c hc]

/-- Witness for C3 at concrete counts: count 0 emits no round, count 3
emits rounds 0, 1, 2, and count -1 has not terminated after 9 iterations. -/
theorem c3_count_parameter_semantics_witness :
    monitorRounds 0 5 = some [] ∧ monitorRounds 3 3 = some [0, 1, 2] ∧
      monitorRounds (-1) 9 = none := by
  refine ⟨(c3_count_parameter_semantics.1 5).1, ?_,
    c3_count_parameter_semantics.2.2 (-1) 9 (by decide)⟩
  have h := c3_count_parameter_semantics.2.1 3 3 (by decide) (by decide)
  rw [h]
  rfl

/-! ## Theorems about host resolution -/

lemma resolveHosts_ok (lookup : Hostname → Except GoError (List IPAddress)) :
    ∀ hosts : List Hostname, (∀ h ∈ hosts, (hostFirstIP lookup h).isSome) →
      ∃ recs, ResolveHosts lookup hosts = Except.ok recs ∧
        List.Forall₂
          (fun h r => r.Hostname = h ∧ hostFirstIP lookup h = some r.IPAddr)
          hosts recs := by
  intro hosts
  induction hosts with
  | nil => intro _; exact ⟨[], rfl, List.Forall₂.nil⟩
  | cons h t ih =>
      intro hall
      have hh := hall h (List.mem_cons_self h t)
      obtain ⟨recs, hrecs, hfa⟩ := ih (fun x hx => hall x (List.mem_cons_of_mem h hx))
      cases hl : lookup h with
      | error e => rw [hostFirstIP, hl] at hh; simp at hh
      | ok ips =>
          cases hf : firstIPv4 ips with
          | none => simp [hostFirstIP, hl, hf] at hh
          | some ip4 =>
              refine ⟨{ Hostname := h, IPAddr := ip4 } :: recs, ?_, ?_⟩
              · simp [ResolveHosts, hl, hf, hrecs]
              · exact List.Forall₂.cons ⟨rfl, by simp [hostFirstIP, hl, hf]⟩ hfa

lemma resolveHosts_fail (lookup : Hostname → Except GoError (List IPAddress)) :
    ∀ (hosts : List Hostname) (h : Hostname), h ∈ hosts →
      hostFirstIP lookup h = none →
      ∃ e, ResolveHosts lookup hosts = Except.error e := by
  intro hosts
  induction hosts with
  | nil => intro h hmem _; simp at hmem
  | cons h0 t ih =>
      intro h hmem hnone
      cases hl : lookup h0 with
      | error e => exact ⟨GoError.resolveFailure h0, by simp [ResolveHosts, hl]⟩
      | ok ips =>
          cases hf : firstIPv4 ips with
          | none => exact ⟨GoError.noIPv4Found h0, by simp [ResolveHosts, hl, hf]⟩
          | some ip4 =>
              rcases List.mem_cons.mp hmem with rfl | hmem2
              · simp [hostFirstIP, hl, hf] at hnone
              · obtain ⟨e, he⟩ := ih h hmem2 hnone
                exact ⟨e, by simp [ResolveHosts, hl, hf, he]⟩

/-- Claim C4: when every hostname in the list has at least one IPv4
address, `ResolveHosts` returns exactly one record per hostname, paired in
input order, each carrying the first IPv4 address found for that name
(`List.Forall₂` ties the two lists elementwise, so lengths and order
match); when any hostname fails to resolve or has no IPv4 address, the
whole batch fails with an error and no record list is returned. -/
theorem c4_resolve_hosts (lookup : Hostname → Except GoError (List IPAddress))
    (hosts : List Hostname) :
    ((∀ h ∈ hosts, (hostFirstIP lookup h).isSome) →
      ∃ recs, ResolveHosts lookup hosts = Except.ok recs ∧
        List.Forall₂
          (fun h r => r.Hostname = h ∧ hostFirstIP lookup h = some r.IPAddr)
          hosts recs) ∧
    (∀ h ∈ hosts, hostFirstIP lookup h = none →
      ∃ e, ResolveHosts lookup hosts = Except.error e) := by
  exact ⟨resolveHosts_ok lookup hosts, resolveHosts_fail lookup hosts⟩

/-- Witness for C4: the batch over hosts 0 and 1 resolves to records in
input order, and a batch containing the unresolvable host 2 fails. -/
theorem c4_resolve_hosts_witness :
    (∃ recs, ResolveHosts c4Lookup [0, 1] = Except.ok recs ∧
      List.Forall₂
        (fun h r => r.Hostname = h ∧ hostFirstIP c4Lookup h = some r.IPAddr)
        [0, 1] recs) ∧
    (∃ e, ResolveHosts c4Lookup [0, 2] = Except.error e) := by
  constructor
  · exact (c4_resolve_hosts c4Lookup [0, 1]).1 (by decide)
  · exact (c4_resolve_hosts c4Lookup [0, 2]).2 2 (by decide) (by decide)

/-! ## Theorems about round timing -/

lemma runRounds_mem (t : GoDuration) (s : Instant) :
    ∀ (durs : List GoDuration) (now : Instant) (i : Nat) (r : RoundRec),
      r ∈ runRounds t s now i durs →
      r.target = s + (r.idx : Int) * t ∧ r.startT = max r.enterNow r.target ∧
        r.probeTimeout = t := by
  intro durs
  induction durs with
  | nil => intro now i r hr; simp [runRounds] at hr
  | cons d ds ih =>
      intro now i r hr
      rw [runRounds, List.mem_cons] at hr
      rcases hr with h | h
      · subst h
        refine ⟨rfl, ?_, rfl⟩
        show (if now < s + (i : Int) * t then s + (i : Int) * t else now) =
          max now (s + (i : Int) * t)
        have hgen : ∀ a b : Int, (if a < b then b else a) = max a b := by
          intro a b
          rw [max_def]
          split <;> split <;> omega
        exact hgen now (s + (i : Int) * t)
      · exact ih _ _ _ h

lemma runRounds_idx (t : GoDuration) (s : Instant) :
    ∀ (durs : List GoDuration) (now : Instant) (i : Nat),
      (runRounds t s now i durs).map RoundRec.idx = List.range' i durs.length := by
  intro durs
  induction durs with
  | nil => intro now i; simp [runRounds]
  | cons d ds ih => intro now i; simp [runRounds, List.range'_succ, ih]

/-- Claim C5: in every run of the scheduler loop, each emitted round's
target is `start + idx * interval`; the round's probing start is the
maximum of the clock at loop entry and the target (so the loop suspends
exactly until the target when early and proceeds immediately when late),
hence never earlier than `start + idx * interval`; and the emitted round
indices are exactly `0, 1, ..., n-1` in order — no round is skipped or
collapsed when a prior round overruns. -/
theorem c5_round_timing (t : GoDuration) (s : Instant) (durs : List GoDuration) :
    (∀ r ∈ runRoundsTop t s durs,
      r.target = s + (r.idx : Int) * t ∧
      r.startT = max r.enterNow r.target ∧
      s + (r.idx : Int) * t ≤ r.startT) ∧
    (runRoundsTop t s durs).map RoundRec.idx = List.range durs.length := by
  constructor
  · intro r hr
    obtain ⟨h1, h2, _⟩ := runRounds_mem t s durs s 0 r hr
    refine ⟨h1, h2, ?_⟩
    rw [h2, ← h1]
    exact le_max_right _ _
  · rw [runRoundsTop, runRounds_idx, List.range_eq_range']

/-- Witness for C5: with start 100 and interval 10, a first round taking 3
time units makes round 1 enter early at 103 and start exactly at its
target 110; a run of two rounds emits indices 0 and 1. -/
theorem c5_round_timing_witness :
    (c5Rec.target = 100 + (c5Rec.idx : Int) * 10 ∧
      c5Rec.startT = max c5Rec.enterNow c5Rec.target ∧
      100 + (c5Rec.idx : Int) * 10 ≤ c5Rec.startT) ∧
    (runRoundsTop 10 100 [3, 25]).map RoundRec.idx = List.range 2 := by
  exact ⟨(c5_round_timing 10 100 [3, 25]).1 c5Rec (by decide),
    (c5_round_timing 10 100 [3, 25]).2⟩

/-- Claim C8: every round of the scheduler is built from a single duration
value: the timeout handed to `pinger.Ping` for each host of the round is
the very value used as the cadence interval, and the round's target start
time is `start + idx * probeTimeout`; there is no independent interval
parameter in `monitorHosts`. -/
theorem c8_interval_is_timeout (t : GoDuration) (s : Instant)
    (durs : List GoDuration) :
    ∀ r ∈ runRoundsTop t s durs,
      r.probeTimeout = t ∧
        r.target = s + (r.idx : Int) * r.probeTimeout := by
  intro r hr
  obtain ⟨h1, _, h3⟩ := runRounds_mem t s durs s 0 r hr
  refine ⟨h3, ?_⟩
  rw [h3]
  exact h1

/-- Witness for C8: the first round of a concrete run with timeout 10
carries probe timeout 10 and target `100 + 0 * 10`. -/
theorem c8_interval_is_timeout_witness :
    c8Rec ∈ runRoundsTop 10 100 [3] ∧
    (c8Rec.probeTimeout = 10 ∧
      c8Rec.target = 100 + (c8Rec.idx : Int) * c8Rec.probeTimeout) := by
  exact ⟨by decide, c8_interval_is_timeout 10 100 [3] c8Rec (by decide)⟩

/-! ## Theorems about the Unix probe's reply handling -/

/-- Claim C6: for a Unix probe whose blocking read returns data before the
deadline, the outcome is decided by the parse of the reply: a message of
type Echo Reply yields success with the elapsed time since the send as the
rtt; any other parsed type yields the unexpected-type protocol error (and
never success); a parse failure propagates the parse error (and never
success). -/
theorem c6_unix_reply_decides_outcome (env : UnixPingEnv) (bytes : List Nat)
    (sender : Nat) (hdl : env.setDeadlineErr = none)
    (hw : env.writeErr = none)
    (hr : env.readOutcome = Except.ok (bytes, sender)) :
    (∀ m, env.parse bytes = Except.ok m →
      (m.type = ICMPType.echoReply → unixPing env = Except.ok env.elapsed) ∧
      (m.type ≠ ICMPType.echoReply →
        unixPing env = Except.error (GoError.unexpectedICMPType m.type))) ∧
    (∀ e, env.parse bytes = Except.error e →
      unixPing env = Except.error e) := by
  constructor
  · intro m hm
    constructor
    · intro ht
      simp [unixPing, hdl, hw, hr, hm, ht]
    · intro ht
      have hstep : unixPing env =
          match m.type with
          | ICMPType.echoReply => Except.ok env.elapsed
          | t => Except.error (GoError.unexpectedICMPType t) := by
        simp [unixPing, hdl, hw, hr, hm]
      rw [hstep]
      cases htm : m.type with
      | echoReply => exact absurd htm ht
      | echo => rfl
      | destinationUnreachable => rfl
      | other n => rfl
  · intro e he
    simp [unixPing, hdl, hw, hr, he]

/-- Witness for C6: a concrete environment whose read bytes parse to an
Echo Reply succeeds with the elapsed time 42, and one whose bytes parse to
a destination-unreachable message fails with the unexpected-type error. -/
theorem c6_unix_reply_decides_outcome_witness :
    unixPing (unixPingReplyEnv [0, 0, 1, 2] 5 c6ReplyMsg 42) = Except.ok 42 ∧
    unixPing (unixPingReplyEnv [0, 0, 1, 2] 5 c6BadMsg 42) =
      Except.error (GoError.unexpectedICMPType ICMPType.destinationUnreachable) := by
  constructor
  · exact ((c6_unix_reply_decides_outcome
      (unixPingReplyEnv [0, 0, 1, 2] 5 c6ReplyMsg 42) [0, 0, 1, 2] 5
      rfl rfl rfl).1 c6ReplyMsg rfl).1 rfl
  · exact ((c6_unix_reply_decides_outcome
      (unixPingReplyEnv [0, 0, 1, 2] 5 c6BadMsg 42) [0, 0, 1, 2] 5
      rfl rfl rfl).1 c6BadMsg rfl).2 (by decide)

/-- Claim C9: the Unix probe's verdict on a reply that was read and parsed
depends only on the parsed message's type.  Any message of type Echo Reply
— whatever its identifier, sequence number or payload, and whatever peer
address the read reports — yields success for the probed address; in
particular nothing is compared against the Echo Request the probe sent
(`createICMPMessage` fixes identifier pid mod 2^16 and sequence 1, yet a
reply with any other identifier and sequence succeeds).  Two replies whose
parsed types agree always produce the same verdict. -/
theorem c9_success_depends_only_on_type :
    (∀ (bytes : List Nat) (sender : Nat) (m : ICMPMessage)
        (elapsed : GoDuration), m.type = ICMPType.echoReply →
      unixPing (unixPingReplyEnv bytes sender m elapsed) = Except.ok elapsed) ∧
    (∀ (b1 : List Nat) (s1 : Nat) (m1 : ICMPMessage) (b2 : List Nat)
        (s2 : Nat) (m2 : ICMPMessage) (elapsed : GoDuration),
      m1.type = m2.type →
      unixPing (unixPingReplyEnv b1 s1 m1 elapsed) =
        unixPing (unixPingReplyEnv b2 s2 m2 elapsed)) := by
  constructor
  · intro bytes sender m elapsed ht
    simp [unixPing, unixPingReplyEnv, ht]
  · intro b1 s1 m1 b2 s2 m2 elapsed htypes
    show (match m1.type with
        | ICMPType.echoReply => Except.ok elapsed
        | t => Except.error (GoError.unexpectedICMPType t)) =
      (match m2.type with
        | ICMPType.echoReply => Except.ok elapsed
        | t => Except.error (GoError.unexpectedICMPType t))
    rw [htypes]

/-- Witness for C9: an Echo Reply whose identifier 999 and sequence 77
differ from the sent request's identifier and sequence
(`createICMPMessage` of any pid uses sequence 1), read from peer 1234,
still succeeds; and two destination-unreachable replies with entirely
different bytes, peers and bodies produce the same failing verdict. -/
theorem c9_success_depends_only_on_type_witness :
    unixPing (unixPingReplyEnv [8] 1234
      { type := ICMPType.echoReply, code := 0, id := 999, seq := 77,
        payload := [9] } 5) = Except.ok 5 ∧
    unixPing (unixPingReplyEnv [1] 1
      { type := ICMPType.destinationUnreachable, code := 0, id := 1, seq := 1,
        payload := [] } 5) =
      unixPing (unixPingReplyEnv [2] 2
        { type := ICMPType.destinationUnreachable, code := 3, id := 2, seq := 9,
          payload := [7] } 5) := by
  constructor
  · exact c9_success_depends_only_on_type.1 [8] 1234 _ 5 rfl
  · exact c9_success_depends_only_on_type.2 [1] 1 _ [2] 2 _ 5 rfl

/-! ## Theorems about the Windows probe -/

lemma toUint32_of_nonneg (x : Int) (hx : 0 ≤ x) :
    toUint32 x = x.toNat % 4294967296 := by
  have h32 : (2 : Int) ^ 32 = 4294967296 := by norm_num
  unfold toUint32
  rw [h32]
  omega

lemma windowsTimeoutMs_eq_max (timeout : GoDuration) :
    windowsTimeoutMs timeout =
      max 1 (toUint32 (DurationMilliseconds timeout)) := by
  show (if toUint32 (DurationMilliseconds timeout) < 1 then 1
    else toUint32 (DurationMilliseconds timeout)) =
    max 1 (toUint32 (DurationMilliseconds timeout))
  split <;> omega

/-- Counterexample to claim C7 as stated: at the non-negative timeout of
2^32 milliseconds (4294967296000000 nanoseconds), the timeout truncated to
whole milliseconds floored at 1 is 4294967296, but the conversion through
the 32-bit facility argument wraps it to 0 and the floor then passes 1. -/
theorem c7_timeout_conversion_counterexample :
    (0 : Int) ≤ 4294967296000000 ∧
    windowsTimeoutMs 4294967296000000 = 1 ∧
    max 1 (DurationMilliseconds 4294967296000000).toNat = 4294967296 ∧
    windowsTimeoutMs 4294967296000000 ≠
      max 1 (DurationMilliseconds 4294967296000000).toNat := by
  refine ⟨by decide, by decide, by decide, by decide⟩

/-- Claim C7, amended: for every probe call the millisecond timeout handed
to the facility is at least 1 (a zero value is never passed); for a
non-negative timeout it equals the timeout truncated to whole milliseconds
reduced modulo 2^32 (the width of the facility's timeout argument) and
floored at 1, which for timeouts below 2^32 milliseconds is exactly the
truncated milliseconds floored at 1; and a successful facility return
reports the reply structure's round-trip-time field interpreted as that
many whole milliseconds. -/
theorem c7_timeout_conversion_amended :
    (∀ timeout : GoDuration, 1 ≤ windowsTimeoutMs timeout) ∧
    (∀ timeout : GoDuration, 0 ≤ timeout →
      windowsTimeoutMs timeout =
        max 1 ((DurationMilliseconds timeout).toNat % 4294967296)) ∧
    (∀ timeout : GoDuration, 0 ≤ timeout →
      DurationMilliseconds timeout < 4294967296 →
      windowsTimeoutMs timeout = max 1 (DurationMilliseconds timeout).toNat) ∧
    (∀ (env : WinPingEnv) (timeout : GoDuration), env.findProcOk = true →
      (windowsPing env timeout).2 = some (windowsTimeoutMs timeout) ∧
      (env.ret ≠ 0 →
        (windowsPing env timeout).1 =
          Except.ok ((env.reply.RoundTripTime : Int) * 1000000))) := by
  refine ⟨?_, ?_, ?_, ?_⟩
  · intro timeout
    rw [windowsTimeoutMs_eq_max]
    omega
  · intro timeout htimeout
    have hnn : 0 ≤ DurationMilliseconds timeout := by
      unfold DurationMilliseconds
      exact Int.tdiv_nonneg htimeout (by norm_num)
    rw [windowsTimeoutMs_eq_max, toUint32_of_nonneg _ hnn]
  · intro timeout htimeout hlt
    have hnn : 0 ≤ DurationMilliseconds timeout := by
      unfold DurationMilliseconds
      exact Int.tdiv_nonneg htimeout (by norm_num)
    rw [windowsTimeoutMs_eq_max, toUint32_of_nonneg _ hnn,
      Nat.mod_eq_of_lt (by omega)]
  · intro env timeout hfp
    constructor
    · rcases hret : env.ret with _ | n <;> simp [windowsPing, hfp, hret]
    · intro hret
      simp [windowsPing, hfp, hret]

/-- Witness for C7 at the concrete timeout of 250 milliseconds
(250000000 nanoseconds): the facility is handed 250, never 0, and a
successful call reports 23 milliseconds as the rtt. -/
theorem c7_timeout_conversion_amended_witness :
    1 ≤ windowsTimeoutMs 250000000 ∧
    windowsTimeoutMs 250000000 =
      max 1 ((DurationMilliseconds 250000000).toNat % 4294967296) ∧
    windowsTimeoutMs 250000000 = max 1 (DurationMilliseconds 250000000).toNat ∧
    (windowsPing c7Env 250000000).2 = some (windowsTimeoutMs 250000000) ∧
    (windowsPing c7Env 250000000).1 = Except.ok ((23 : Int) * 1000000) := by
  refine ⟨c7_timeout_conversion_amended.1 250000000,
    c7_timeout_conversion_amended.2.1 250000000 (by decide),
    c7_timeout_conversion_amended.2.2.1 250000000 (by decide) (by decide),
    (c7_timeout_conversion_amended.2.2.2 c7Env 250000000 rfl).1,
    (c7_timeout_conversion_amended.2.2.2 c7Env 250000000 rfl).2 (by decide)⟩

/-- Claim C10: with the facility procedure available, the Windows probe
succeeds exactly when the facility's echo call returns non-zero, in which
case the reported rtt is the reply's round-trip-time in milliseconds; a
zero return is the only failure; and the verdict is entirely independent
of the reply's `Status` field, which the source never reads — a reply
whose status records a failure is still reported as a successful probe. -/
theorem c10_status_never_examined (env : WinPingEnv) (timeout : GoDuration)
    (hfp : env.findProcOk = true) :
    ((windowsPing env timeout).1 =
        Except.ok ((env.reply.RoundTripTime : Int) * 1000000) ↔
      env.ret ≠ 0) ∧
    (env.ret = 0 →
      (windowsPing env timeout).1 = Except.error GoError.icmpSendEchoFailed) ∧
    (∀ s : Nat,
      windowsPing { env with reply := { env.reply with Status := s } } timeout =
        windowsPing env timeout) := by
  refine ⟨?_, ?_, ?_⟩
  · constructor
    · intro hok hret
      rw [show (windowsPing env timeout).1 =
            Except.error GoError.icmpSendEchoFailed by
          simp [windowsPing, hfp, hret]] at hok
      exact absurd hok (by simp)
    · intro hret
      simp [windowsPing, hfp, hret]
  · intro hret
    simp [windowsPing, hfp, hret]
  · intro s
    rcases env with ⟨fp, ret, ⟨a, st, rtt, ds⟩⟩
    simp [windowsPing]

/-- Witness for C10: a non-zero facility return with a failure status in
the reply is still reported as success with the reply's 17 millisecond
rtt, and a zero return is reported as the facility error. -/
theorem c10_status_never_examined_witness :
    (windowsPing c10Env 100000000).1 = Except.ok ((17 : Int) * 1000000) ∧
    (windowsPing c10EnvZero 100000000).1 =
      Except.error GoError.icmpSendEchoFailed := by
  constructor
  · exact (c10_status_never_examined c10Env 100000000 rfl).1.mpr (by decide)
  · exact (c10_status_never_examined c10EnvZero 100000000 rfl).2.1 rfl
